import Mathlib

/-!
Verification of the chunked position-execution engine of the trading-bot
scripts `src/packages/plugin-trading/python_trading/ezbot.py`,
`config.py` and `nice_funcs.py`.

Python floats are modelled as exact rationals (`ℚ`); the remote market-data
and swap services are modelled, following the contracts of the spec
(Market Data Client, Swap Submitter), as an oracle of per-attempt outcomes;
a successful submission of a chunk is taken to fill exactly that chunk
(the spec's reading of a "successful submission").
-/

namespace Ezbot

/-! ### Static configuration, from `config.py` -/

/-- Target position notional, `config.py` line 5 (`usd_size = 5`). -/
def usd_size : ℚ := 5

/-- Per-order cap, `config.py` line 6 (`max_usd_order_size = 1`). -/
def max_usd_order_size : ℚ := 1

/-- Inter-transaction sleep, `config.py` line 7 (`tx_sleep = 30`). -/
def tx_sleep : ℕ := 30

/-- Replica orders per iteration, `config.py` line 13 (`orders_per_open = 3`). -/
def orders_per_open : ℕ := 3

/-- Market-maker buy threshold, `config.py` line 16 (`buy_under = .0946`). -/
def buy_under : ℚ := 946 / 10000

/-- Market-maker sell threshold, `config.py` line 17 (`sell_over = 1`). -/
def sell_over : ℚ := 1

/-! ### Chunk sizing, `ezbot.py` lines 60-65 (repeated at 88-92, 109-113,
125-129, 146-151): `size_needed = usd_size - pos_usd;
if size_needed > max_usd_order_size: chunk_size = max_usd_order_size
else: chunk_size = size_needed`. -/

def computeChunk (usdSize maxOrder posUsd : ℚ) : ℚ :=
  let size_needed := usdSize - posUsd
  if size_needed > maxOrder then maxOrder else size_needed

/-- The close path (`ezbot.py` line 40 and line 155) passes
`max_usd_order_size` itself as the chunk argument of `chunk_kill`. -/
def closeChunkArg (maxOrder : ℚ) : ℚ := maxOrder

/-! ### The Accumulate executor, `ezbot.py` lines 55-134 (`while buy == 1`).

One iteration of the `while pos_usd < .97 * usd_size` loop:
a `try` block submits `orders_per_open` orders of the current `chunk_size`,
sleeps `tx_sleep`, then re-fetches position and price and recomputes the
chunk (lines 75-92).  If anything in the `try` raises, the bare `except`
sleeps 30 seconds and repeats the submissions once (lines 94-113); if the
retry also raises, the inner `except` breaks out of the loop
(lines 116-119).  The outcome of each `try`/retry attempt is scripted by an
oracle: `ok` (everything succeeds), `submitFail` (the first `market_buy`
of the attempt raises, so no order of the attempt is placed), or
`dataFail` (the orders are placed, then the re-fetch of position/price
raises — the spec's `DataUnavailable`).  After a `dataFail` the chunk is
not recomputed, so the retry reuses the stale chunk, exactly as in the
source.  The post-`except` re-fetch of lines 121-129 is modelled as
succeeding (its failure would propagate out of `bot()` like the initial
fetch). -/

inductive TryOut
  | ok
  | submitFail
  | dataFail
deriving DecidableEq, Repr

inductive RunOutcome
  | reached
  | stalled
  | aborted
  | outOfFuel
deriving DecidableEq, Repr

/-- Observable result of one Accumulate invocation: terminal outcome, the
sizes (USD) of the orders submitted in order, the backoff sleeps taken in
the retry handler (seconds), the `time.sleep(7867678)` taken at entry when
the position is already filled (`ezbot.py` lines 67-69), and the number of
market-data reads that raised. -/
structure RunResult where
  outcome : RunOutcome
  subs : List ℚ
  backoffs : List ℕ
  entrySleep : Option ℕ
  dataFails : ℕ
deriving DecidableEq, Repr

/-- The `while pos_usd < .97 * usd_size` loop of `ezbot.py` lines 71-129,
with fuel for termination and an attempt-indexed oracle.  `ai` is the index
of the next scripted attempt outcome. -/
def runAccAux (usdSize maxOrder : ℚ) (nOrders : ℕ) (oracle : ℕ → TryOut) :
    ℕ → ℚ → ℚ → ℕ → List ℚ → List ℕ → ℕ → RunResult
  | 0, _, _, _, subs, backoffs, df => ⟨.outOfFuel, subs, backoffs, none, df⟩
  | fuel + 1, posUsd, chunk, ai, subs, backoffs, df =>
    if posUsd < 97 / 100 * usdSize then
      match oracle ai with
      | .ok =>
        let posUsd2 := posUsd + (nOrders : ℚ) * chunk
        runAccAux usdSize maxOrder nOrders oracle fuel posUsd2
          (computeChunk usdSize maxOrder posUsd2) (ai + 1)
          (subs ++ List.replicate nOrders chunk) backoffs df
      | .submitFail =>
        match oracle (ai + 1) with
        | .ok =>
          let posUsd2 := posUsd + (nOrders : ℚ) * chunk
          runAccAux usdSize maxOrder nOrders oracle fuel posUsd2
            (computeChunk usdSize maxOrder posUsd2) (ai + 2)
            (subs ++ List.replicate nOrders chunk) (backoffs ++ [30]) df
        | .submitFail =>
          ⟨.stalled, subs, backoffs ++ [30], none, df⟩
        | .dataFail =>
          ⟨.stalled, subs ++ List.replicate nOrders chunk, backoffs ++ [30],
            none, df + 1⟩
      | .dataFail =>
        let posUsd1 := posUsd + (nOrders : ℚ) * chunk
        let subs1 := subs ++ List.replicate nOrders chunk
        match oracle (ai + 1) with
        | .ok =>
          let posUsd2 := posUsd1 + (nOrders : ℚ) * chunk
          runAccAux usdSize maxOrder nOrders oracle fuel posUsd2
            (computeChunk usdSize maxOrder posUsd2) (ai + 2)
            (subs1 ++ List.replicate nOrders chunk) (backoffs ++ [30]) (df + 1)
        | .submitFail =>
          ⟨.stalled, subs1, backoffs ++ [30], none, df + 1⟩
        | .dataFail =>
          ⟨.stalled, subs1 ++ List.replicate nOrders chunk, backoffs ++ [30],
            none, df + 2⟩
    else ⟨.reached, subs, backoffs, none, df⟩

/-- One full Accumulate invocation, `ezbot.py` lines 55-134.  The initial
position and price fetch of lines 57-58 is unprotected: when it raises
(`initFetchOk = false`) the tick aborts with nothing submitted.  Otherwise
the entry chunk is computed (lines 59-65), the entry check of lines 67-69
sleeps 7867678 seconds when the position already exceeds 97% of the
target, and the loop of lines 71-129 runs. -/
def accumulateRun (usdSize maxOrder : ℚ) (nOrders fuel : ℕ)
    (initFetchOk : Bool) (pos price : ℚ) (oracle : ℕ → TryOut) : RunResult :=
  if initFetchOk then
    let posUsd := pos * price
    let chunk := computeChunk usdSize maxOrder posUsd
    let entry : Option ℕ :=
      if posUsd > 97 / 100 * usdSize then some 7867678 else none
    let r := runAccAux usdSize maxOrder nOrders oracle fuel posUsd chunk 0 [] [] 0
    { r with entrySleep := entry }
  else ⟨.aborted, [], [], none, 1⟩

/-- Scripts the first outcomes from a list; once the list is exhausted every
further attempt succeeds. -/
def oracleOf (l : List TryOut) : ℕ → TryOut := fun k => l.getD k .ok

/-! ### Sizing invariant lemmas -/

/-- The sizing rule of `ezbot.py` lines 60-65 never produces a chunk above
the per-order cap. -/
lemma computeChunk_le (usdSize maxOrder posUsd : ℚ) :
    computeChunk usdSize maxOrder posUsd ≤ maxOrder := by
  rcases le_or_lt (usdSize - posUsd) maxOrder with h | h
  · simpa [computeChunk, not_lt.mpr h] using h
  · simp [computeChunk, h]

lemma mem_append_replicate_le {m chunk : ℚ} {subs : List ℚ} {n : ℕ}
    (hc : chunk ≤ m) (hs : ∀ x ∈ subs, x ≤ m) :
    ∀ x ∈ subs ++ List.replicate n chunk, x ≤ m := by
  intro x hx
  rcases List.mem_append.mp hx with h | h
  · exact hs x h
  · rcases List.mem_replicate.mp h with ⟨-, rfl⟩
    exact hc

/-- Every order size the Accumulate loop ever submits is bounded by the cap,
provided the chunk carried into the loop is. -/
lemma runAccAux_subs_le (usdSize m : ℚ) (n : ℕ) (oracle : ℕ → TryOut) :
    ∀ (fuel : ℕ) (posUsd chunk : ℚ) (ai : ℕ) (subs : List ℚ)
      (backoffs : List ℕ) (df : ℕ),
      chunk ≤ m → (∀ x ∈ subs, x ≤ m) →
      ∀ x ∈ (runAccAux usdSize m n oracle fuel posUsd chunk ai subs backoffs df).subs,
        x ≤ m := by
  intro fuel
  induction fuel with
  | zero =>
    intro posUsd chunk ai subs backoffs df hc hs
    simpa [runAccAux] using hs
  | succ fuel ih =>
    intro posUsd chunk ai subs backoffs df hc hs
    by_cases h : posUsd < 97 / 100 * usdSize
    · cases h1 : oracle ai with
      | ok =>
        simp only [runAccAux, if_pos h, h1]
        exact ih _ _ _ _ _ _ (computeChunk_le _ _ _) (mem_append_replicate_le hc hs)
      | submitFail =>
        cases h2 : oracle (ai + 1) with
        | ok =>
          simp only [runAccAux, if_pos h, h1, h2]
          exact ih _ _ _ _ _ _ (computeChunk_le _ _ _) (mem_append_replicate_le hc hs)
        | submitFail =>
          simp only [runAccAux, if_pos h, h1, h2]
          exact hs
        | dataFail =>
          simp only [runAccAux, if_pos h, h1, h2]
          exact mem_append_replicate_le hc hs
      | dataFail =>
        cases h2 : oracle (ai + 1) with
        | ok =>
          simp only [runAccAux, if_pos h, h1, h2]
          exact ih _ _ _ _ _ _ (computeChunk_le _ _ _)
            (mem_append_replicate_le hc (mem_append_replicate_le hc hs))
        | submitFail =>
          simp only [runAccAux, if_pos h, h1, h2]
          exact mem_append_replicate_le hc hs
        | dataFail =>
          simp only [runAccAux, if_pos h, h1, h2]
          exact mem_append_replicate_le hc (mem_append_replicate_le hc hs)
    · simp only [runAccAux, if_neg h]
      exact hs

/-- Claim C1: for every target ≥ 0 and maxOrderSize > 0, the chunk sizes
the Accumulate executor submits in any iteration (each produced by the
`min(target - current*price, maxOrderSize)` rule of `ezbot.py` lines 60-65
and 88-92) never exceed maxOrderSize, and the Close path's chunk argument
(the configured max order size itself) never exceeds maxOrderSize. -/
theorem C1_chunks_bounded (usdSize maxOrder pos price : ℚ) (nOrders fuel : ℕ)
    (initFetchOk : Bool) (oracle : ℕ → TryOut)
    (htarget : 0 ≤ usdSize) (hmax : 0 < maxOrder) :
    (∀ x ∈ (accumulateRun usdSize maxOrder nOrders fuel initFetchOk pos price oracle).subs,
        x ≤ maxOrder)
  ∧ closeChunkArg maxOrder ≤ maxOrder := by
  constructor
  · cases initFetchOk with
    | false => simp [accumulateRun]
    | true =>
      intro x hx
      refine runAccAux_subs_le usdSize maxOrder nOrders oracle fuel (pos * price)
        (computeChunk usdSize maxOrder (pos * price)) 0 [] [] 0
        (computeChunk_le _ _ _) (by simp) x ?_
      simpa [accumulateRun] using hx
  · exact le_refl _

/-- Witness for C1 at the configured values. -/
theorem C1_chunks_bounded_witness :
    (∀ x ∈ (accumulateRun usd_size max_usd_order_size orders_per_open 10 true 0 1
        (oracleOf [])).subs, x ≤ max_usd_order_size)
  ∧ closeChunkArg max_usd_order_size ≤ max_usd_order_size :=
  C1_chunks_bounded usd_size max_usd_order_size 0 1 orders_per_open 10 true
    (oracleOf []) (by norm_num [usd_size]) (by norm_num [max_usd_order_size])

/-- Claim C2: when an Accumulate submission attempt fails, exactly one retry
runs after the fixed 30-second backoff of `ezbot.py` line 98; a successful
retry continues exactly like a successful iteration (no Stalled), while a
failed retry ends the tick as Stalled with nothing further submitted and no
further backoff (`ezbot.py` lines 94-119); a successful first attempt takes
no backoff at all. -/
theorem C2_retry_policy (usdSize maxOrder : ℚ) (nOrders fuel : ℕ)
    (oracle : ℕ → TryOut) (posUsd chunk : ℚ) (ai : ℕ)
    (subs : List ℚ) (backoffs : List ℕ) (df : ℕ)
    (hloop : posUsd < 97 / 100 * usdSize) :
    (oracle ai = .submitFail → oracle (ai + 1) = .submitFail →
      runAccAux usdSize maxOrder nOrders oracle (fuel + 1) posUsd chunk ai subs backoffs df
        = ⟨.stalled, subs, backoffs ++ [30], none, df⟩)
  ∧ (oracle ai = .submitFail → oracle (ai + 1) = .ok →
      runAccAux usdSize maxOrder nOrders oracle (fuel + 1) posUsd chunk ai subs backoffs df
        = runAccAux usdSize maxOrder nOrders oracle fuel
            (posUsd + (nOrders : ℚ) * chunk)
            (computeChunk usdSize maxOrder (posUsd + (nOrders : ℚ) * chunk))
            (ai + 2) (subs ++ List.replicate nOrders chunk) (backoffs ++ [30]) df)
  ∧ (oracle ai = .ok →
      runAccAux usdSize maxOrder nOrders oracle (fuel + 1) posUsd chunk ai subs backoffs df
        = runAccAux usdSize maxOrder nOrders oracle fuel
            (posUsd + (nOrders : ℚ) * chunk)
            (computeChunk usdSize maxOrder (posUsd + (nOrders : ℚ) * chunk))
            (ai + 1) (subs ++ List.replicate nOrders chunk) backoffs df) := by
  refine ⟨fun h1 h2 => ?_, fun h1 h2 => ?_, fun h1 => ?_⟩
  · simp only [runAccAux, if_pos hloop, h1, h2]
  · simp only [runAccAux, if_pos hloop, h1, h2]
  · simp only [runAccAux, if_pos hloop, h1]

/-- Witness for C2: a fail-fail step stalls after one 30s backoff; a
fail-then-succeed step proceeds with the orders submitted. -/
theorem C2_retry_policy_witness :
    (runAccAux 5 1 3 (oracleOf [.submitFail, .submitFail]) 1 0 1 0 [] [] 0
      = ⟨.stalled, [], [30], none, 0⟩)
  ∧ (runAccAux 5 1 3 (oracleOf [.submitFail, .ok]) 1 0 1 0 [] [] 0
      = runAccAux 5 1 3 (oracleOf [.submitFail, .ok]) 0 3 1 2 [1, 1, 1] [30] 0) := by
  constructor
  · exact (C2_retry_policy 5 1 3 0 (oracleOf [.submitFail, .submitFail]) 0 1 0 [] [] 0
      (by norm_num)).1 rfl rfl
  · have h := (C2_retry_policy 5 1 3 0 (oracleOf [.submitFail, .ok]) 0 1 0 [] [] 0
      (by norm_num)).2.1 rfl rfl
    norm_num [computeChunk, List.replicate] at h
    exact h

/-- Claim C3 as stated is false: with `usd_size = 5`, `max_usd_order_size = 1`,
`orders_per_open = 3` and a starting position of 0, the all-successful
Accumulate run submits 6 orders, not 5 (two iterations of 3 replica orders
each, `ezbot.py` line 77). -/
theorem C3_counterexample :
    (accumulateRun usd_size max_usd_order_size orders_per_open 10 true 0 1
        (oracleOf [])).subs.length = 6
  ∧ (accumulateRun usd_size max_usd_order_size orders_per_open 10 true 0 1
        (oracleOf [])).subs.length ≠ 5 := by
  norm_num [accumulateRun, runAccAux, computeChunk, oracleOf, usd_size,
    max_usd_order_size, orders_per_open, List.replicate]

/-- Claim C3 amended: with target 5, maxOrderSize 1, starting position 0 and
the configured replica factor `orders_per_open = 3`, the all-successful run
performs exactly 6 submissions, each of size 1, before reporting Reached. -/
theorem C3_six_submissions :
    accumulateRun usd_size max_usd_order_size orders_per_open 10 true 0 1 (oracleOf [])
      = ⟨.reached, [1, 1, 1, 1, 1, 1], [], none, 0⟩ := by
  norm_num [accumulateRun, runAccAux, computeChunk, oracleOf, usd_size,
    max_usd_order_size, orders_per_open, List.replicate]

/-- Claim C4 as stated is false on the "immediately / rather than blocking"
part: at target 5 with the position already at the target, the invocation
does issue zero orders and report Reached, but only after the
`time.sleep(7867678)` of `ezbot.py` line 69. -/
theorem C4_counterexample :
    (accumulateRun usd_size max_usd_order_size orders_per_open 10 true 5 1
        (oracleOf [])).subs = []
  ∧ (accumulateRun usd_size max_usd_order_size orders_per_open 10 true 5 1
        (oracleOf [])).entrySleep = some 7867678 := by
  norm_num [accumulateRun, runAccAux, computeChunk, oracleOf, usd_size,
    max_usd_order_size, orders_per_open]

/-- Claim C4 amended: invoking Accumulate with the current position value at
or above a positive target issues zero orders and reports Reached, but the
invocation first blocks in a fixed 7,867,678-second sleep (`ezbot.py`
lines 67-69) rather than terminating at once. -/
theorem C4_filled_entry (usdSize maxOrder pos price : ℚ) (nOrders fuel : ℕ)
    (oracle : ℕ → TryOut) (h0 : 0 < usdSize) (hfull : usdSize ≤ pos * price) :
    accumulateRun usdSize maxOrder nOrders (fuel + 1) true pos price oracle
      = ⟨.reached, [], [], some 7867678, 0⟩ := by
  have h97 : 97 / 100 * usdSize < pos * price := by linarith
  have hgt : pos * price > 97 / 100 * usdSize := h97
  have hnot : ¬ (pos * price < 97 / 100 * usdSize) := not_lt.mpr (le_of_lt h97)
  simp [accumulateRun, runAccAux, hnot, hgt]

/-- Witness for the amended C4 at the configured target. -/
theorem C4_filled_entry_witness :
    accumulateRun usd_size max_usd_order_size orders_per_open 10 true 5 1 (oracleOf [])
      = ⟨.reached, [], [], some 7867678, 0⟩ :=
  C4_filled_entry usd_size max_usd_order_size 5 1 orders_per_open 9 (oracleOf [])
    (by norm_num [usd_size]) (by norm_num [usd_size])

/-- Claim C5 as stated is false: a market-data failure in the in-loop
re-fetch (`ezbot.py` lines 85-87, inside the `try`) is caught by the bare
`except` and triggers the retry submissions, so a tick with a mid-tick
data failure can still submit orders — here 6 of them, 3 of which come
after the first data failure. -/
theorem C5_counterexample :
    0 < (accumulateRun usd_size max_usd_order_size orders_per_open 10 true 0 1
          (oracleOf [.dataFail, .dataFail])).dataFails
  ∧ (accumulateRun usd_size max_usd_order_size orders_per_open 10 true 0 1
        (oracleOf [.dataFail, .dataFail])).subs = [1, 1, 1, 1, 1, 1] := by
  norm_num [accumulateRun, runAccAux, computeChunk, oracleOf, usd_size,
    max_usd_order_size, orders_per_open, List.replicate]

/-- Claim C5 amended: only a failure of the initial, unprotected position
and price fetch of `ezbot.py` lines 57-58 makes the tick submit zero
orders; the failure propagates (aborting the tick) and is never treated as
a zero position or price. -/
theorem C5_initial_fetch_abort (usdSize maxOrder pos price : ℚ)
    (nOrders fuel : ℕ) (oracle : ℕ → TryOut) :
    accumulateRun usdSize maxOrder nOrders fuel false pos price oracle
      = ⟨.aborted, [], [], none, 1⟩ := by
  simp [accumulateRun]

/-! ### The MarketMake mode, `ezbot.py` lines 139-183 (`while buy == 5`).

One tick fetches position and price (lines 143-144), then:
`if price > sell_over:` run `chunk_kill` (a Close, lines 153-157);
`elif (price < buy_under) and (pos_usd < usd_size):` sleep 10, re-fetch a
second position/price snapshot (lines 162-173) and, if the re-checked
condition `(pos_usd < usd_size) and (price < buy_under)` still holds, run
`elegant_entry` (a buy, lines 175-179); otherwise do nothing (lines
181-183).  The `chunk_size` computed at lines 146-151 is not used by this
decision.  The two snapshots are the model's parameters. -/

inductive MMAction
  | closeAct
  | buyAct
  | holdAct
deriving DecidableEq, Repr

def marketMakeTick (usdSize buyUnder sellOver pos1 price1 pos2 price2 : ℚ) :
    MMAction :=
  let posUsd1 := pos1 * price1
  if price1 > sellOver then .closeAct
  else if price1 < buyUnder ∧ posUsd1 < usdSize then
    let posUsd2 := pos2 * price2
    if posUsd2 < usdSize ∧ price2 < buyUnder then .buyAct else .holdAct
  else .holdAct

/-- Claim C6: in MarketMake mode, whenever the fetched price is strictly
above `sell_over`, the tick triggers exactly a Close of the held position,
regardless of the configured `buy_under`: the sell check of `ezbot.py`
line 153 is evaluated before the buy check of line 160. -/
theorem C6_sell_precedes_buy (usdSize buyUnder sellOver pos1 price1 pos2 price2 : ℚ)
    (h : price1 > sellOver) :
    marketMakeTick usdSize buyUnder sellOver pos1 price1 pos2 price2 = .closeAct := by
  simp [marketMakeTick, if_pos h]

/-- Witness for C6 at the configured band, with a `buy_under` above the
price as well (both conditions in range, sell wins). -/
theorem C6_sell_precedes_buy_witness :
    marketMakeTick usd_size 2 sell_over 0 (3 / 2) 0 (3 / 2) = .closeAct :=
  C6_sell_precedes_buy usd_size 2 sell_over 0 (3 / 2) 0 (3 / 2)
    (by norm_num [sell_over])

/-- Claim C7: in MarketMake mode, any price inside the closed band
`[buy_under, sell_over]` issues no order that tick; in particular a price
exactly at either threshold results in inaction (both comparisons of
`ezbot.py` lines 153 and 160 are strict). -/
theorem C7_dead_band (usdSize buyUnder sellOver pos1 price1 pos2 price2 : ℚ)
    (hlo : buyUnder ≤ price1) (hhi : price1 ≤ sellOver) :
    marketMakeTick usdSize buyUnder sellOver pos1 price1 pos2 price2 = .holdAct := by
  have h1 : ¬ (price1 > sellOver) := not_lt.mpr hhi
  have h2 : ¬ (price1 < buyUnder) := not_lt.mpr hlo
  simp [marketMakeTick, h1, h2]

/-- Witness for C7 at both boundary prices of the configured band. -/
theorem C7_dead_band_witness :
    marketMakeTick usd_size buy_under sell_over 0 buy_under 0 buy_under = .holdAct
  ∧ marketMakeTick usd_size buy_under sell_over 0 sell_over 0 sell_over = .holdAct :=
  ⟨C7_dead_band usd_size buy_under sell_over 0 buy_under 0 buy_under
      (le_refl _) (by norm_num [buy_under, sell_over]),
    C7_dead_band usd_size buy_under sell_over 0 sell_over 0 sell_over
      (by norm_num [buy_under, sell_over]) (le_refl _)⟩

/-! ### The scheduler wrapper, `ezbot.py` lines 197-205.

`schedule.every(30).seconds.do(bot)` followed by
`while True: try: schedule.run_pending(); time.sleep(3)
except: print; time.sleep(15)`.  A scheduled invocation that raises is
modelled as `run_pending` returning an error; the bare `except` catches it
and the loop sleeps 15 seconds instead of 3 and goes on to the next tick.
The loop body never re-raises, so the run processes every scheduled tick. -/

inductive TickResult
  | ok
  | fault
deriving DecidableEq, Repr

/-- `schedule.run_pending()` either returns or raises whatever the tick
raised. -/
def runPendingResult : TickResult → Except String Unit
  | .ok => .ok ()
  | .fault => .error "tick raised"

/-- One iteration of the `while True` loop: the sleep it ends with (3 on a
clean tick, 15 as cooldown after a caught fault). -/
def loopIterSleep (t : TickResult) : ℕ :=
  match runPendingResult t with
  | .ok _ => 3
  | .error _ => 15

/-- The scheduler loop over a finite prefix of tick results: one sleep per
tick, in order; no tick result can terminate the loop early. -/
def schedulerRun (ts : List TickResult) : List ℕ := ts.map loopIterSleep

/-- Claim C8: every fault raised during a scheduled invocation is caught at
the scheduler layer and followed by the 15-second cooldown sleep, and the
next scheduled tick still runs: the loop produces exactly one iteration per
tick no matter which ticks fault, so no single failing tick terminates the
process. -/
theorem C8_faults_contained (ts : List TickResult) :
    (schedulerRun ts).length = ts.length
  ∧ (∀ i : ℕ, ts.getD i .ok = .fault → (schedulerRun ts).getD i 0 = 15)
  ∧ (∀ i : ℕ, ts.getD i .fault = .ok → (schedulerRun ts).getD i 0 ≠ 15) := by
  refine ⟨List.length_map _ _, ?_, ?_⟩ <;>
  · intro i
    induction ts generalizing i with
    | nil => simp [schedulerRun]
    | cons t ts ih =>
      cases i with
      | zero => cases t <;> simp [schedulerRun, loopIterSleep, runPendingResult]
      | succ i => simpa [schedulerRun] using ih i

/-- Witness for C8: a faulting tick between two clean ones is followed by
the cooldown, and both neighbours still run normally. -/
theorem C8_faults_contained_witness :
    (schedulerRun [.ok, .fault, .ok]).length = 3
  ∧ (schedulerRun [.ok, .fault, .ok]).getD 1 0 = 15
  ∧ (schedulerRun [.ok, .fault, .ok]).getD 2 0 ≠ 15 :=
  ⟨(C8_faults_contained [.ok, .fault, .ok]).1,
    (C8_faults_contained [.ok, .fault, .ok]).2.1 1 rfl,
    (C8_faults_contained [.ok, .fault, .ok]).2.2 2 rfl⟩

/-! ### The global name environment of `nice_funcs.py`.

Python resolves `n.get_position` (an attribute access on the imported
module) and a bare global such as `MIN_TRADES_LAST_HOUR` against the same
dictionary: the module's top-level bindings.  Those are, in order of
execution of `nice_funcs.py`: every name of `config.py` (the two
`from config import *` at lines 1 and 12), the imported modules and
aliases, the values assigned at lines 23-27, and the five functions
defined in the file.  A missing attribute raises `AttributeError`; a
missing bare name raises `NameError`. -/

inductive PyVal
  | intV (z : ℤ)
  | floatV (q : ℚ)
  | strV (s : String)
  | boolV (b : Bool)
  | listV
  | funcV
  | moduleV
  | extV
deriving DecidableEq, Repr

inductive PyExc
  | attributeError (name : String)
  | nameError (name : String)
  | typeError (msg : String)
deriving DecidableEq, Repr

/-- The top-level bindings of `config.py` (lines 1-43), in file order;
`slippage` is assigned twice with the same value. -/
def configGlobals : List (String × PyVal) := [
  ("symbol", .strV "9BB6NFEcjBCtnNLFko2FqVQBq8HHM13kCyYcdQbgpump"),
  ("address", .strV "4wgfCBf2WwLSRKLef9iW7JXZ2AfkxUxGM4XcKpHm3Sin"),
  ("usd_size", .intV 5),
  ("max_usd_order_size", .intV 1),
  ("tx_sleep", .intV 30),
  ("slippage", .intV 199),
  ("PRIORITY_FEE", .intV 100000),
  ("orders_per_open", .intV 3),
  ("buy_under", .floatV (946 / 10000)),
  ("sell_over", .intV 1),
  ("STOPLOSS_PRICE", .intV 1),
  ("BREAKOUT_PRICE", .floatV (1 / 10000)),
  ("SLEEP_AFTER_CLOSE", .intV 600),
  ("DAYSBACK_4_DATA", .intV 10),
  ("DATA_TIMEFRAME", .strV "15m"),
  ("sell_at_multiple", .intV 3),
  ("USDC_SIZE", .intV 1),
  ("limit", .intV 49),
  ("timeframe", .strV "15m"),
  ("stop_loss_perctentage", .floatV (-(24 / 100))),
  ("tokens_to_trade", .listV),
  ("EXIT_ALL_POSITIONS", .boolV false),
  ("DO_NOT_TRADE_LIST", .listV),
  ("CLOSED_POSITIONS_TXT", .strV "777"),
  ("minimum_trades_in_last_hour", .intV 777)]

/-- The bindings `nice_funcs.py` itself adds at module level: imports and
aliases (lines 2-18), the secret-derived values and constants (lines
23-27), and the five function definitions (lines 30, 36, 41, 129, 183,
209, 250). -/
def niceFuncsOwnGlobals : List (String × PyVal) := [
  ("requests", .moduleV),
  ("pd", .moduleV),
  ("pprint", .moduleV),
  ("reggie", .moduleV),
  ("sys", .moduleV),
  ("os", .moduleV),
  ("time", .moduleV),
  ("json", .moduleV),
  ("np", .moduleV),
  ("datetime", .extV),
  ("ta", .moduleV),
  ("timedelta", .extV),
  ("colored", .funcV),
  ("cprint", .funcV),
  ("solders", .moduleV),
  ("d", .moduleV),
  ("API_KEY", .extV),
  ("sample_address", .strV "2yXTyarttn2pTZ6cwt4DqmrRuBw1G7pmFv9oT6MStdKP"),
  ("BASE_URL", .strV "https://public-api.birdeye.so/defi"),
  ("print_pretty_json", .funcV),
  ("find_urls", .funcV),
  ("token_security_info", .funcV),
  ("token_creation_info", .funcV),
  ("market_buy", .funcV),
  ("market_sell", .funcV),
  ("token_overview", .funcV)]

/-- The full global dictionary of the `nice_funcs` module. -/
def niceFuncsGlobals : List (String × PyVal) :=
  configGlobals ++ niceFuncsOwnGlobals

/-- Attribute access `module.name`: `AttributeError` when the name is not
among the module's bindings. -/
def moduleAttr (env : List (String × PyVal)) (name : String) :
    Except PyExc PyVal :=
  match env.find? (fun p => p.1 == name) with
  | some p => .ok p.2
  | none => .error (.attributeError name)

/-- Bare global-name resolution inside the module: `NameError` when the
name is not bound. -/
def resolveGlobal (env : List (String × PyVal)) (name : String) :
    Except PyExc PyVal :=
  match env.find? (fun p => p.1 == name) with
  | some p => .ok p.2
  | none => .error (.nameError name)

/-- The first `nice_funcs` attribute each order-relevant operator mode of
`ezbot.py` reaches: mode 0 at line 38, mode 1 at line 57 and mode 5 at
line 143 all start with `n.get_position(symbol)`. -/
def firstHelperName : ℕ → Option String
  | 0 => some "get_position"
  | 1 => some "get_position"
  | 5 => some "get_position"
  | _ => none

/-- Claim C9: the helper functions `get_position`, `token_price`,
`chunk_kill` and `elegant_entry` that `ezbot.py` invokes on `nice_funcs`
are bound nowhere in the source, and each order-relevant mode (0, 1 and 5)
reaches `n.get_position` as its first helper access, which therefore
raises `AttributeError`. -/
theorem C9_missing_helpers :
    moduleAttr niceFuncsGlobals "get_position"
      = .error (.attributeError "get_position")
  ∧ moduleAttr niceFuncsGlobals "token_price"
      = .error (.attributeError "token_price")
  ∧ moduleAttr niceFuncsGlobals "chunk_kill"
      = .error (.attributeError "chunk_kill")
  ∧ moduleAttr niceFuncsGlobals "elegant_entry"
      = .error (.attributeError "elegant_entry")
  ∧ firstHelperName 0 = some "get_position"
  ∧ firstHelperName 1 = some "get_position"
  ∧ firstHelperName 5 = some "get_position" :=
  ⟨rfl, rfl, rfl, rfl, rfl, rfl, rfl⟩

/-! ### `token_overview`, `nice_funcs.py` lines 41-126.

On an HTTP 200 response the function computes `buy1h`, `sell1h`,
`trade1h = buy1h + sell1h` and the buy/sell percentages (guarded against a
zero denominator), then at line 77 evaluates
`trade1h >= MIN_TRADES_LAST_HOUR`, resolving `MIN_TRADES_LAST_HOUR` as a
global of the module; on any other status it prints and returns `None`
(lines 124-126).  The response payload is abstracted to the fields the
embedded prefix of the function reads. -/

structure OverviewResp where
  status : ℕ
  buy1h : ℤ
  sell1h : ℤ
  priceChanges : List ℤ
deriving DecidableEq, Repr

structure OverviewResult where
  buy1h : ℤ
  sell1h : ℤ
  trade1h : ℤ
  buyPercentage : ℚ
  sellPercentage : ℚ
  minimumTradesMet : Bool
  rugPull : Bool
deriving DecidableEq, Repr

def token_overview (env : List (String × PyVal)) (r : OverviewResp) :
    Except PyExc (Option OverviewResult) :=
  if r.status = 200 then
    let buy1h := r.buy1h
    let sell1h := r.sell1h
    let trade1h := buy1h + sell1h
    let buyPct : ℚ := if trade1h ≠ 0 then (buy1h : ℚ) / (trade1h : ℚ) * 100 else 0
    let sellPct : ℚ := if trade1h ≠ 0 then (sell1h : ℚ) / (trade1h : ℚ) * 100 else 0
    match resolveGlobal env "MIN_TRADES_LAST_HOUR" with
    | .error e => .error e
    | .ok v =>
      match v with
      | .intV m =>
        .ok (some
          { buy1h := buy1h, sell1h := sell1h, trade1h := trade1h,
            buyPercentage := buyPct, sellPercentage := sellPct,
            minimumTradesMet := if trade1h ≥ m then true else false,
            rugPull := r.priceChanges.any (fun x => x < -80) })
      | _ => .error (.typeError "unorderable types in comparison")
  else .ok none

/-- Claim C10: for every response, a 200 status makes `token_overview`
raise `NameError` on the undefined `MIN_TRADES_LAST_HOUR` (the
configuration defines `minimum_trades_in_last_hour` instead) before
returning, so the function returns a result dictionary for no successful
response, and returns `None` exactly when the status is not 200. -/
theorem C10_name_error (r : OverviewResp) :
    (r.status = 200 →
      token_overview niceFuncsGlobals r
        = .error (.nameError "MIN_TRADES_LAST_HOUR"))
  ∧ (token_overview niceFuncsGlobals r = .ok none ↔ r.status ≠ 200) := by
  have hres : resolveGlobal niceFuncsGlobals "MIN_TRADES_LAST_HOUR"
      = .error (.nameError "MIN_TRADES_LAST_HOUR") := rfl
  by_cases h : r.status = 200
  · refine ⟨fun _ => ?_, ?_⟩
    · simp [token_overview, h, hres]
    · simp [token_overview, h, hres]
  · exact ⟨fun hc => absurd hc h, by simp [token_overview, h]⟩

/-- Witness for C10: a successful response raises the `NameError`; a 404
returns `None`. -/
theorem C10_name_error_witness :
    token_overview niceFuncsGlobals ⟨200, 3, 4, [-90]⟩
      = .error (.nameError "MIN_TRADES_LAST_HOUR")
  ∧ token_overview niceFuncsGlobals ⟨404, 0, 0, []⟩ = .ok none :=
  ⟨(C10_name_error ⟨200, 3, 4, [-90]⟩).1 rfl,
    (C10_name_error ⟨404, 0, 0, []⟩).2.mpr (by norm_num)⟩

end Ezbot
